import Mathlib

/-!
Shallow embedding of the hotel-dashboard data pipeline (`src/app.py`):
loading, cleaning, filtering and KPI computation over snapshot rows.
Nullable fields are `Option`s; pandas comparison semantics (a comparison
with a null value is false) are modelled explicitly.  Python's
`round(x, 2)` is modelled over exact rationals via `round2`.
-/

attribute [local semireducible] Rat.mul Rat.inv Rat.add Rat.sub

namespace MikeViz

/-- Rounding a rational to two decimal places, the exact-arithmetic model of
Python's `round(x, 2)` as used throughout `app.py` (computable via
`Rat.floor`; equal to `round (x * 100) / 100`, see `round2_eq`). -/
def round2 (x : ℚ) : ℚ := (((x * 100 + 1 / 2).floor : ℤ) : ℚ) / 100

/-- Arithmetic mean of a list of rationals, the model of `Series.mean()`
restricted to the non-null entries. -/
def meanQ (xs : List ℚ) : ℚ := xs.sum / (xs.length : ℚ)

/-- Distinct elements of a list in order of first occurrence, the model of
pandas `Series.unique()`; `seen` accumulates the values already emitted. -/
def uniqueFirstAux {α : Type} [DecidableEq α] : List α → List α → List α
  | [], _ => []
  | a :: l, seen =>
      if a ∈ seen then uniqueFirstAux l seen
      else a :: uniqueFirstAux l (a :: seen)

/-- Distinct elements of a list in order of first occurrence. -/
def uniqueFirst {α : Type} [DecidableEq α] (l : List α) : List α :=
  uniqueFirstAux l []

/-- Number of distinct elements, the model of pandas `Series.nunique()`. -/
def nunique {α : Type} [DecidableEq α] (l : List α) : Nat :=
  (uniqueFirst l).length

/-- Substring test on character lists, the model of Python's `in` on strings. -/
def hasSub (pat : List Char) : List Char → Bool
  | [] => pat.isEmpty
  | c :: rest => pat.isPrefixOf (c :: rest) || hasSub pat rest

/-- Final path component, the model of `os.path.basename`: characters after
the last path separator. -/
def basename (s : String) : String :=
  String.mk (s.toList.foldl (fun acc c => if c = '/' then [] else acc ++ [c]) [])

/-- `get_scrape_time` from `app.py` lines 13-20: Morning if the base name
contains "Mor", else Evening if it contains "Eve", else Unknown. -/
def get_scrape_time (filename : String) : String :=
  if hasSub "Mor".toList (basename filename).toList then "Morning"
  else if hasSub "Eve".toList (basename filename).toList then "Evening"
  else "Unknown"

/-- One normalized snapshot row of the combined table.  `name` is the hotel
identifier column; null numeric and date fields are `none`. -/
structure Row where
  name : String
  nights : Int
  persons : Int
  price : Option ℚ
  review_score : Option ℚ
  distance : Option ℚ
  price_date : Option Int
  scrape_time : String
deriving DecidableEq

/-- `safe_mean` from `app.py` lines 142-145: drop nulls, return the rounded
mean, or 0 when nothing remains. -/
def safe_mean (s : List (Option ℚ)) : ℚ :=
  let clean := s.filterMap id
  if clean.isEmpty then 0 else round2 (meanQ clean)

/-- `calculate_occupancy_rate` from `app.py` lines 147-153: share of distinct
hotel names having at least one non-null price, as a rounded percentage. -/
def calculate_occupancy_rate (df : List Row) : ℚ :=
  if df.isEmpty then 0
  else
    let total_hotels := nunique (df.map Row.name)
    let hotels_with_prices := nunique ((df.filter (fun r => r.price.isSome)).map Row.name)
    if 0 < total_hotels then
      round2 (((hotels_with_prices : ℚ) / (total_hotels : ℚ)) * 100)
    else 0

/-- Scalar KPI `avg_review_score` (`app.py` line 163). -/
def avg_review_score (df : List Row) : ℚ := safe_mean (df.map Row.review_score)

/-- Scalar KPI `adr` (`app.py` line 171). -/
def adr (df : List Row) : ℚ := safe_mean (df.map Row.price)

/-- Scalar KPI `occupancy_rate` (`app.py` line 179). -/
def occupancy_rate (df : List Row) : ℚ := calculate_occupancy_rate df

/-- Scalar KPI `revpar` (`app.py` line 187): the already-rounded `adr` and
`occupancy_rate` are composed and the product rounded again. -/
def revpar (df : List Row) : ℚ := round2 (adr df * (occupancy_rate df / 100))

/-- Follows the spec's words for the comparison in the revpar claim: the
unrounded mean of the non-null prices (true ADR before rounding). -/
def rawAdr (df : List Row) : ℚ :=
  let clean := (df.map Row.price).filterMap id
  if clean.isEmpty then 0 else meanQ clean

/-- Follows the spec's words for the comparison in the revpar claim: the
unrounded occupancy percentage (before rounding). -/
def rawOcc (df : List Row) : ℚ :=
  if df.isEmpty then 0
  else
    let total_hotels := nunique (df.map Row.name)
    let hotels_with_prices := nunique ((df.filter (fun r => r.price.isSome)).map Row.name)
    if 0 < total_hotels then ((hotels_with_prices : ℚ) / (total_hotels : ℚ)) * 100 else 0

/-- Follows the spec's words: revpar recomputed from the unrounded inputs,
the alternative the spec says the code does NOT implement. -/
def revparFromUnrounded (df : List Row) : ℚ :=
  round2 (rawAdr df * (rawOcc df / 100))

/-- The sidebar filter state: selected hotels, the single nights and persons
selections, the price-slider bounds and the date-input endpoints. -/
structure FilterSpec where
  hotels : List String
  nightsSel : Int
  personsSel : Int
  priceLo : ℚ
  priceHi : ℚ
  dateRange : List Int
deriving DecidableEq

/-- Pandas semantics of `price >= lo`: a null value fails the comparison. -/
def qGe (v : Option ℚ) (b : ℚ) : Bool :=
  match v with
  | none => false
  | some x => decide (b ≤ x)

/-- Pandas semantics of `price <= hi`: a null value fails the comparison. -/
def qLe (v : Option ℚ) (b : ℚ) : Bool :=
  match v with
  | none => false
  | some x => decide (x ≤ b)

/-- Pandas semantics of `price_date_dt >= start`: NaT fails the comparison. -/
def dGe (v : Option Int) (b : Int) : Bool :=
  match v with
  | none => false
  | some x => decide (b ≤ x)

/-- Pandas semantics of `price_date_dt <= end`: NaT fails the comparison. -/
def dLe (v : Option Int) (b : Int) : Bool :=
  match v with
  | none => false
  | some x => decide (x ≤ b)

/-- Hotel filter (`app.py` lines 118-119): applied only when the selection is
non-empty. -/
def filterHotels (spec : FilterSpec) (rows : List Row) : List Row :=
  if spec.hotels.isEmpty then rows
  else rows.filter (fun r => spec.hotels.contains r.name)

/-- Nights/persons exact-match filter (`app.py` lines 122-125). -/
def filterStay (spec : FilterSpec) (rows : List Row) : List Row :=
  rows.filter (fun r => r.nights == spec.nightsSel && r.persons == spec.personsSel)

/-- Price-range filter (`app.py` lines 128-131), applied unconditionally. -/
def filterPrice (spec : FilterSpec) (rows : List Row) : List Row :=
  rows.filter (fun r => qGe r.price spec.priceLo && qLe r.price spec.priceHi)

/-- Date-range filter (`app.py` lines 134-139): applied only when the date
input has exactly two endpoints. -/
def filterDate (spec : FilterSpec) (rows : List Row) : List Row :=
  match spec.dateRange with
  | [start_date, end_date] =>
      rows.filter (fun r => dGe r.price_date start_date && dLe r.price_date end_date)
  | _ => rows

/-- `filtered_data` (`app.py` lines 115-139): the four filter stages applied
in source order. -/
def filtered_data (data : List Row) (spec : FilterSpec) : List Row :=
  filterDate spec (filterPrice spec (filterStay spec (filterHotels spec data)))

/-- Follows the spec's words for the Filter Engine contract (§4.3): the
logical AND of all active predicates, with inclusive price/date bounds and
null price or date failing the range predicates. -/
def specFilterPred (spec : FilterSpec) (r : Row) : Bool :=
  (spec.hotels.isEmpty || spec.hotels.contains r.name) &&
  (r.nights == spec.nightsSel) &&
  (r.persons == spec.personsSel) &&
  (qGe r.price spec.priceLo && qLe r.price spec.priceHi) &&
  (match spec.dateRange with
   | [start_date, end_date] => dGe r.price_date start_date && dLe r.price_date end_date
   | _ => true)

/-- Minimum of a list, the model of `sorted(options)[0]` and `Series.min()`. -/
def listMin {α : Type} [LinearOrder α] : List α → Option α
  | [] => none
  | x :: xs =>
      match listMin xs with
      | none => some x
      | some m => some (min x m)

/-- Maximum of a list, the model of `Series.max()`. -/
def listMax {α : Type} [LinearOrder α] : List α → Option α
  | [] => none
  | x :: xs =>
      match listMax xs with
      | none => some x
      | some m => some (max x m)

/-- Non-null prices of a table, the model of `data['price'].dropna()`. -/
def nonNullPrices (data : List Row) : List ℚ := (data.map Row.price).filterMap id

/-- Non-null dates of a table, the model of `data['price_date_dt']` with NaT
skipped by pandas min/max. -/
def nonNullDates (data : List Row) : List Int := (data.map Row.price_date).filterMap id

/-- The widget defaults of `app.py` lines 66-112: no hotels selected, the
first (smallest) nights and persons options, the full price-slider range
(with the `(0, 1000)` fallback when no price exists) and the full date range. -/
def defaultFullSpec (data : List Row) : FilterSpec :=
  ⟨[],
   (listMin (data.map Row.nights)).getD 0,
   (listMin (data.map Row.persons)).getD 0,
   (listMin (nonNullPrices data)).getD 0,
   (listMax (nonNullPrices data)).getD 1000,
   [(listMin (nonNullDates data)).getD 0, (listMax (nonNullDates data)).getD 0]⟩

/-- Pandas equality against a value drawn from `unique()`: `NaT == NaT` is
false, so a null date never matches. -/
def dateEqNaT (a b : Option Int) : Bool :=
  match a, b with
  | some x, some y => x == y
  | _, _ => false

/-- The per-(date, scrape_time) subset selected inside the series loops
(`app.py` lines 228-231 and 268-271). -/
def seriesSubset (rows : List Row) (d : Option Int) (s : String) : List Row :=
  rows.filter (fun r => dateEqNaT r.price_date d && r.scrape_time == s)

/-- One emitted point of a per-date/per-scrape-time series. -/
structure SeriesPoint where
  price_date : Option Int
  scrape_time : String
  value : ℚ
deriving DecidableEq

/-- The `revpar_data` loop (`app.py` lines 225-240): for every unique date and
unique scrape time, emit the partition's `safe_mean` price times occupancy
over 100 — with no final rounding — skipping empty partitions. -/
def revpar_data (rows : List Row) : List SeriesPoint :=
  ((uniqueFirst (rows.map Row.price_date)).map (fun d =>
    (uniqueFirst (rows.map Row.scrape_time)).filterMap (fun s =>
      let subset := seriesSubset rows d s
      if subset.isEmpty then none
      else some ⟨d, s, safe_mean (subset.map Row.price) *
                         (calculate_occupancy_rate subset / 100)⟩))).flatten

/-- The `occupancy_data` loop (`app.py` lines 265-278): the partition's
occupancy rate, skipping empty partitions. -/
def occupancy_data (rows : List Row) : List SeriesPoint :=
  ((uniqueFirst (rows.map Row.price_date)).map (fun d =>
    (uniqueFirst (rows.map Row.scrape_time)).filterMap (fun s =>
      let subset := seriesSubset rows d s
      if subset.isEmpty then none
      else some ⟨d, s, calculate_occupancy_rate subset⟩))).flatten

/-- One parsed CSV row before the scrape-time tag is attached. -/
structure CsvRow where
  name : String
  nights : Int
  persons : Int
  price : Option ℚ
  review_score : Option ℚ
  distance : Option ℚ
  price_date : Option Int
deriving DecidableEq

/-- Attach the file's scrape time to a parsed row (`df['scrape_time'] = ...`,
`app.py` line 32). -/
def tagRow (st : String) (c : CsvRow) : Row :=
  ⟨c.name, c.nights, c.persons, c.price, c.review_score, c.distance, c.price_date, st⟩

/-- `load_data` (`app.py` lines 24-53): each input file either parses to a
list of rows (`some rows`) or fails (`none`, reported and skipped); the
successfully parsed files are tagged with their scrape time and concatenated,
and zero successes yield the empty table. -/
def load_data (files : List (String × Option (List CsvRow))) : List Row :=
  (files.filterMap (fun f =>
    f.2.map (fun rows => rows.map (tagRow (get_scrape_time f.1))))).flatten

/-- Result of the top-level flow: either the terminal no-data stop or the
rendered filtered table. -/
inductive DashboardResult where
  | noData : DashboardResult
  | render : List Row → DashboardResult
deriving DecidableEq

/-- The top-level flow of `app.py` lines 56-139: load, stop with the no-data
error when the table is empty (`st.stop()`, lines 58-60), otherwise filter. -/
def runDashboard (files : List (String × Option (List CsvRow))) (spec : FilterSpec) :
    DashboardResult :=
  let data := load_data files
  if data.isEmpty then DashboardResult.noData
  else DashboardResult.render (filtered_data data spec)

/-! ## Helper lemmas -/

theorem round2_eq (x : ℚ) : round2 x = ((round (x * 100) : ℤ) : ℚ) / 100 := by
  rw [round2, round_eq, Rat.floor_def', Rat.floor_def]

theorem round2_mono {x y : ℚ} (h : x ≤ y) : round2 x ≤ round2 y := by
  rw [round2_eq, round2_eq]
  have hr : round (x * 100) ≤ round (y * 100) := by
    rw [round_eq, round_eq]
    exact Int.floor_le_floor (by linarith)
  have hq : ((round (x * 100) : ℤ) : ℚ) ≤ ((round (y * 100) : ℤ) : ℚ) := by exact_mod_cast hr
  linarith

theorem round2_zero : round2 0 = 0 := by decide

theorem round2_hundred : round2 100 = 100 := by decide

theorem round2_nonneg {x : ℚ} (h : 0 ≤ x) : 0 ≤ round2 x := by
  have := round2_mono h
  rwa [round2_zero] at this

theorem mem_uniqueFirstAux {α : Type} [DecidableEq α] {a : α} :
    ∀ {l seen : List α}, a ∈ uniqueFirstAux l seen ↔ a ∈ l ∧ a ∉ seen := by
  intro l
  induction l with
  | nil => intro seen; simp [uniqueFirstAux]
  | cons b l ih =>
    intro seen
    rw [uniqueFirstAux]
    by_cases hb : b ∈ seen
    · rw [if_pos hb, ih]
      constructor
      · rintro ⟨h1, h2⟩
        exact ⟨List.mem_cons_of_mem _ h1, h2⟩
      · rintro ⟨h1, h2⟩
        rcases List.mem_cons.mp h1 with rfl | h1
        · exact absurd hb h2
        · exact ⟨h1, h2⟩
    · rw [if_neg hb]
      constructor
      · intro h1
        rcases List.mem_cons.mp h1 with rfl | h1
        · exact ⟨List.mem_cons_self _ _, hb⟩
        · obtain ⟨h2, h3⟩ := ih.mp h1
          refine ⟨List.mem_cons_of_mem _ h2, fun hs => h3 ?_⟩
          exact List.mem_cons_of_mem _ hs
      · rintro ⟨h1, h2⟩
        by_cases hab : a = b
        · exact hab ▸ List.mem_cons_self _ _
        · rcases List.mem_cons.mp h1 with rfl | h1
          · exact absurd rfl hab
          · refine List.mem_cons_of_mem _ (ih.mpr ⟨h1, fun hs => ?_⟩)
            rcases List.mem_cons.mp hs with rfl | hs
            · exact hab rfl
            · exact h2 hs

theorem mem_uniqueFirst {α : Type} [DecidableEq α] {a : α} {l : List α} :
    a ∈ uniqueFirst l ↔ a ∈ l := by
  rw [uniqueFirst, mem_uniqueFirstAux]
  simp

theorem nodup_uniqueFirstAux {α : Type} [DecidableEq α] :
    ∀ {l seen : List α}, (uniqueFirstAux l seen).Nodup := by
  intro l
  induction l with
  | nil => intro seen; simp [uniqueFirstAux]
  | cons b l ih =>
    intro seen
    rw [uniqueFirstAux]
    by_cases hb : b ∈ seen
    · rw [if_pos hb]; exact ih
    · rw [if_neg hb]
      refine List.nodup_cons.mpr ⟨fun hmem => ?_, ih⟩
      exact (mem_uniqueFirstAux.mp hmem).2 (List.mem_cons_self _ _)

theorem nodup_uniqueFirst {α : Type} [DecidableEq α] {l : List α} :
    (uniqueFirst l).Nodup := nodup_uniqueFirstAux

theorem nunique_eq_card {α : Type} [DecidableEq α] (l : List α) :
    nunique l = l.toFinset.card := by
  have h2 : (uniqueFirst l).toFinset = l.toFinset := by
    ext a
    simp [List.mem_toFinset, mem_uniqueFirst]
  rw [nunique, ← List.toFinset_card_of_nodup nodup_uniqueFirst, h2]

theorem nunique_le_of_subset {α : Type} [DecidableEq α] {l₁ l₂ : List α} (h : l₁ ⊆ l₂) :
    nunique l₁ ≤ nunique l₂ := by
  rw [nunique_eq_card, nunique_eq_card]
  refine Finset.card_le_card (fun a ha => ?_)
  rw [List.mem_toFinset] at ha ⊢
  exact h ha

theorem nunique_pos {α : Type} [DecidableEq α] {l : List α} (h : l ≠ []) :
    0 < nunique l := by
  match l, h with
  | a :: l, _ =>
    have : a ∈ uniqueFirst (a :: l) := mem_uniqueFirst.mpr (List.mem_cons_self _ _)
    exact List.length_pos.mpr (List.ne_nil_of_mem this)

theorem listMin_eq_none {α : Type} [LinearOrder α] {l : List α} :
    listMin l = none ↔ l = [] := by
  cases l with
  | nil => simp [listMin]
  | cons x xs =>
    rw [listMin]
    cases listMin xs <;> simp

theorem listMax_eq_none {α : Type} [LinearOrder α] {l : List α} :
    listMax l = none ↔ l = [] := by
  cases l with
  | nil => simp [listMax]
  | cons x xs =>
    rw [listMax]
    cases listMax xs <;> simp

theorem listMin_le {α : Type} [LinearOrder α] :
    ∀ {l : List α} {m a : α}, listMin l = some m → a ∈ l → m ≤ a := by
  intro l
  induction l with
  | nil => intro m a hm ha; cases ha
  | cons x xs ih =>
    intro m a hm ha
    rw [listMin] at hm
    cases hx : listMin xs with
    | none =>
      rw [hx] at hm
      obtain rfl := Option.some_injective _ hm
      rcases List.mem_cons.mp ha with rfl | ha
      · exact le_refl a
      · exact absurd (listMin_eq_none.mp hx ▸ ha) (List.not_mem_nil a)
    | some k =>
      rw [hx] at hm
      obtain rfl := Option.some_injective _ hm
      rcases List.mem_cons.mp ha with rfl | ha
      · exact min_le_left _ _
      · exact le_trans (min_le_right _ _) (ih hx ha)

theorem le_listMax {α : Type} [LinearOrder α] :
    ∀ {l : List α} {m a : α}, listMax l = some m → a ∈ l → a ≤ m := by
  intro l
  induction l with
  | nil => intro m a hm ha; cases ha
  | cons x xs ih =>
    intro m a hm ha
    rw [listMax] at hm
    cases hx : listMax xs with
    | none =>
      rw [hx] at hm
      obtain rfl := Option.some_injective _ hm
      rcases List.mem_cons.mp ha with rfl | ha
      · exact le_refl a
      · exact absurd (listMax_eq_none.mp hx ▸ ha) (List.not_mem_nil a)
    | some k =>
      rw [hx] at hm
      obtain rfl := Option.some_injective _ hm
      rcases List.mem_cons.mp ha with rfl | ha
      · exact le_max_left _ _
      · exact le_trans (ih hx ha) (le_max_right _ _)

theorem mem_nonNullPrices {data : List Row} {r : Row} {p : ℚ}
    (hr : r ∈ data) (hp : r.price = some p) : p ∈ nonNullPrices data := by
  simp only [nonNullPrices, List.mem_filterMap, List.mem_map, id]
  exact ⟨some p, ⟨r, hr, hp⟩, rfl⟩

theorem mem_nonNullDates {data : List Row} {r : Row} {d : Int}
    (hr : r ∈ data) (hd : r.price_date = some d) : d ∈ nonNullDates data := by
  simp only [nonNullDates, List.mem_filterMap, List.mem_map, id]
  exact ⟨some d, ⟨r, hr, hd⟩, rfl⟩

theorem filterHotels_eq (spec : FilterSpec) (rows : List Row) :
    filterHotels spec rows =
      rows.filter (fun r => spec.hotels.isEmpty || spec.hotels.contains r.name) := by
  rw [filterHotels]
  cases h : spec.hotels.isEmpty with
  | true => simp [h]
  | false => simp [h]

theorem filterDate_eq (spec : FilterSpec) (rows : List Row) :
    filterDate spec rows = rows.filter (fun r =>
      match spec.dateRange with
      | [start_date, end_date] => dGe r.price_date start_date && dLe r.price_date end_date
      | _ => true) := by
  rw [filterDate]
  rcases spec.dateRange with _ | ⟨s, _ | ⟨e, _ | ⟨c, rest⟩⟩⟩ <;> simp

theorem filtered_data_eq_filter (data : List Row) (spec : FilterSpec) :
    filtered_data data spec = data.filter (specFilterPred spec) := by
  rw [filtered_data, filterHotels_eq, filterStay, filterPrice, filterDate_eq,
    List.filter_filter, List.filter_filter, List.filter_filter]
  refine List.filter_congr (fun r _ => ?_)
  simp only [specFilterPred, Bool.and_assoc, Bool.and_comm, Bool.and_left_comm]

theorem mem_of_mem_filterDate {spec : FilterSpec} {l : List Row} {r : Row}
    (h : r ∈ filterDate spec l) : r ∈ l := by
  rw [filterDate] at h
  generalize hdr : spec.dateRange = dr at h
  rcases dr with _ | ⟨s, _ | ⟨e, _ | ⟨c, rest⟩⟩⟩
  · exact h
  · exact h
  · exact List.mem_of_mem_filter h
  · exact h

theorem mem_seriesLoop {f : List Row → ℚ} {rows : List Row} {p : SeriesPoint} :
    (p ∈ ((uniqueFirst (rows.map Row.price_date)).map (fun d =>
      (uniqueFirst (rows.map Row.scrape_time)).filterMap (fun s =>
        let subset := seriesSubset rows d s
        if subset.isEmpty then none
        else some ⟨d, s, f subset⟩))).flatten) ↔
      (p.price_date ∈ rows.map Row.price_date ∧
       p.scrape_time ∈ rows.map Row.scrape_time ∧
       seriesSubset rows p.price_date p.scrape_time ≠ [] ∧
       p.value = f (seriesSubset rows p.price_date p.scrape_time)) := by
  obtain ⟨pd, ps, pv⟩ := p
  dsimp only
  constructor
  · intro hmem
    rw [List.mem_flatten] at hmem
    obtain ⟨l, hl, hp⟩ := hmem
    rw [List.mem_map] at hl
    obtain ⟨d, hd, rfl⟩ := hl
    rw [List.mem_filterMap] at hp
    obtain ⟨s, hs, hg⟩ := hp
    by_cases hsub : (seriesSubset rows d s).isEmpty
    · rw [if_pos hsub] at hg; cases hg
    · rw [if_neg hsub] at hg
      rw [Option.some_inj, SeriesPoint.mk.injEq] at hg
      obtain ⟨rfl, rfl, rfl⟩ := hg
      refine ⟨mem_uniqueFirst.mp hd, mem_uniqueFirst.mp hs, ?_, rfl⟩
      simpa [List.isEmpty_iff] using hsub
  · rintro ⟨hd, hs, hsub, rfl⟩
    rw [List.mem_flatten]
    refine ⟨_, List.mem_map.mpr ⟨pd, mem_uniqueFirst.mpr hd, rfl⟩, ?_⟩
    rw [List.mem_filterMap]
    refine ⟨ps, mem_uniqueFirst.mpr hs, ?_⟩
    rw [if_neg (by simpa [List.isEmpty_iff] using hsub)]

theorem safe_mean_eq_zero {s : List (Option ℚ)} (h : s.filterMap id = []) :
    safe_mean s = 0 := by
  simp [safe_mean, h]

theorem safe_mean_eq_round2 {s : List (Option ℚ)} (h : s.filterMap id ≠ []) :
    safe_mean s = round2 (meanQ (s.filterMap id)) := by
  rw [safe_mean]
  exact if_neg (by simpa [List.isEmpty_iff] using h)

/-! ## Claims -/

/-- Claim C5 (confirmed): the derived scrape time is Morning exactly when the
base name contains "Mor", Evening exactly when it does not contain "Mor" but
contains "Eve", Unknown exactly when it contains neither — so "Mor" takes
precedence over "Eve" — and the result is always one of Morning, Evening,
Unknown. -/
theorem C5_scrape_time_precedence (f : String) :
    (get_scrape_time f = "Morning" ↔ hasSub "Mor".toList (basename f).toList = true) ∧
    (get_scrape_time f = "Evening" ↔
      (hasSub "Mor".toList (basename f).toList = false ∧
       hasSub "Eve".toList (basename f).toList = true)) ∧
    (get_scrape_time f = "Unknown" ↔
      (hasSub "Mor".toList (basename f).toList = false ∧
       hasSub "Eve".toList (basename f).toList = false)) ∧
    (get_scrape_time f = "Morning" ∨ get_scrape_time f = "Evening" ∨
     get_scrape_time f = "Unknown") := by
  rw [get_scrape_time]
  cases hm : hasSub "Mor".toList (basename f).toList <;>
    cases he : hasSub "Eve".toList (basename f).toList <;> simp

/-- Witness for C5 at a file name containing both "Mor" and "Eve": the
"Mor" branch wins, the outcome is Morning. -/
theorem C5_scrape_time_precedence_witness :
    get_scrape_time "csv_files/HotelsMorEve1.csv" = "Morning" :=
  (C5_scrape_time_precedence "csv_files/HotelsMorEve1.csv").1.mpr (by decide)

/-- Claim C6 (confirmed): the filter pipeline returns exactly the rows
satisfying the logical AND of all active predicates — hotel membership when
the selection is non-empty, exact nights/persons match, inclusive price
bounds failing on null price, and inclusive date bounds (when two endpoints
are given) failing on null date. -/
theorem C6_filter_engine_conjunction (data : List Row) (spec : FilterSpec) :
    filtered_data data spec = data.filter (specFilterPred spec) :=
  filtered_data_eq_filter data spec

/-- Witness for C6 at a concrete table and filter specification. -/
theorem C6_filter_engine_conjunction_witness :
    filtered_data [⟨"A", 1, 2, some 100, none, none, some 3, "Morning"⟩,
        ⟨"B", 1, 2, none, none, none, some 3, "Evening"⟩]
      ⟨["A"], 1, 2, 0, 1000, [0, 5]⟩ =
    ([⟨"A", 1, 2, some 100, none, none, some 3, "Morning"⟩,
      ⟨"B", 1, 2, none, none, none, some 3, "Evening"⟩] : List Row).filter
      (specFilterPred ⟨["A"], 1, 2, 0, 1000, [0, 5]⟩) :=
  C6_filter_engine_conjunction
    [⟨"A", 1, 2, some 100, none, none, some 3, "Morning"⟩,
     ⟨"B", 1, 2, none, none, none, some 3, "Evening"⟩]
    ⟨["A"], 1, 2, 0, 1000, [0, 5]⟩

/-- Claim C8 (confirmed): when zero input files parse successfully the loader
yields the empty base table and the program halts at the no-data guard
without reaching the filter stage. -/
theorem C8_empty_loader_stops (files : List (String × Option (List CsvRow)))
    (spec : FilterSpec) (h : ∀ f ∈ files, f.2 = none) :
    load_data files = [] ∧ runDashboard files spec = DashboardResult.noData := by
  have hl : load_data files = [] := by
    rw [load_data]
    have hfm : files.filterMap
        (fun f => f.2.map (fun rows => rows.map (tagRow (get_scrape_time f.1)))) = [] := by
      induction files with
      | nil => rfl
      | cons f fs ih =>
        rw [List.filterMap_cons, h f (List.mem_cons_self _ _)]
        exact ih (fun g hg => h g (List.mem_cons_of_mem _ hg))
    rw [hfm]
    rfl
  refine ⟨hl, ?_⟩
  simp [runDashboard, hl]

/-- Witness for C8: a single unparsable file yields the empty table and the
no-data stop. -/
theorem C8_empty_loader_stops_witness :
    load_data [("csv_files/OuluMor1.csv", none)] = [] ∧
    runDashboard [("csv_files/OuluMor1.csv", none)] ⟨[], 1, 2, 0, 1000, []⟩ =
      DashboardResult.noData :=
  C8_empty_loader_stops _ _ (by
    intro f hf
    rcases List.mem_singleton.mp hf with rfl
    rfl)

/-- Claim C10 (confirmed): the date-range predicate is applied only when the
supplied range has exactly two endpoints; with fewer than two endpoints the
pipeline equals the one without any date restriction, so rows of every date
pass through. -/
theorem C10_date_range_conditional (data : List Row) (spec : FilterSpec)
    (h : spec.dateRange.length < 2) :
    filtered_data data spec =
      filterPrice spec (filterStay spec (filterHotels spec data)) := by
  rw [filtered_data, filterDate]
  generalize hdr : spec.dateRange = dr at h
  rcases dr with _ | ⟨s, _ | ⟨e, rest⟩⟩
  · rfl
  · rfl
  · simp only [List.length_cons] at h
    omega

/-- Witness for C10: with a single-endpoint date range a row whose date lies
outside that endpoint still passes through. -/
theorem C10_date_range_conditional_witness :
    filtered_data [⟨"A", 1, 2, some 100, none, none, some 7, "Morning"⟩]
        ⟨[], 1, 2, 0, 1000, [0]⟩ =
      [⟨"A", 1, 2, some 100, none, none, some 7, "Morning"⟩] := by
  rw [C10_date_range_conditional _ _ (by decide)]
  decide

/-- Claim C1 counterexample: a subset with one distinct hotel whose only
price is null has occupancy_rate 0 although its distinct-hotel count is 1,
so "equals 0 exactly when the distinct-hotel count is 0" fails. -/
theorem C1_counterexample :
    nunique (([⟨"A", 1, 2, none, none, none, some 0, "Morning"⟩] : List Row).map Row.name)
      = 1 ∧
    occupancy_rate [⟨"A", 1, 2, none, none, none, some 0, "Morning"⟩] = 0 := by
  decide

/-- Claim C1 (amended): occupancy_rate equals the rounded percentage of
distinct hotels with a non-null price over all distinct hotels when the
distinct-hotel count is positive, equals 0 when that count is 0, always lies
in [0, 100], and equals 0 whenever no distinct hotel has a non-null price —
hence not only when the distinct-hotel count is 0. -/
theorem C1_occupancy_rate_amended (df : List Row) :
    (0 < nunique (df.map Row.name) →
      occupancy_rate df =
        round2 (((nunique ((df.filter (fun r => r.price.isSome)).map Row.name) : ℚ) /
          (nunique (df.map Row.name) : ℚ)) * 100)) ∧
    (nunique (df.map Row.name) = 0 → occupancy_rate df = 0) ∧
    0 ≤ occupancy_rate df ∧ occupancy_rate df ≤ 100 ∧
    (nunique ((df.filter (fun r => r.price.isSome)).map Row.name) = 0 →
      occupancy_rate df = 0) := by
  by_cases hdf : df = []
  · subst hdf
    refine ⟨fun ht => absurd ht (by simp [nunique, uniqueFirst, uniqueFirstAux]), ?_, ?_, ?_, ?_⟩
    · intro _; rfl
    · exact le_refl 0
    · norm_num [occupancy_rate, calculate_occupancy_rate]
    · intro _; rfl
  · have hne : df.map Row.name ≠ [] := by simpa using hdf
    have ht : 0 < nunique (df.map Row.name) := nunique_pos hne
    have hisEmpty : df.isEmpty = false := by simp [List.isEmpty_iff, hdf]
    have hocc : occupancy_rate df =
        round2 (((nunique ((df.filter (fun r => r.price.isSome)).map Row.name) : ℚ) /
          (nunique (df.map Row.name) : ℚ)) * 100) := by
      simp only [occupancy_rate, calculate_occupancy_rate, hisEmpty, Bool.false_eq_true,
        if_false, if_pos ht]
    have hsubset : nunique ((df.filter (fun r => r.price.isSome)).map Row.name) ≤
        nunique (df.map Row.name) :=
      nunique_le_of_subset (List.map_subset _ (List.filter_sublist df).subset)
    have htq : (0 : ℚ) < (nunique (df.map Row.name) : ℚ) := by exact_mod_cast ht
    have hratio_nonneg : (0 : ℚ) ≤
        ((nunique ((df.filter (fun r => r.price.isSome)).map Row.name) : ℚ) /
          (nunique (df.map Row.name) : ℚ)) * 100 := by
      apply mul_nonneg
      · exact div_nonneg (Nat.cast_nonneg _) (Nat.cast_nonneg _)
      · norm_num
    have hratio_le : ((nunique ((df.filter (fun r => r.price.isSome)).map Row.name) : ℚ) /
        (nunique (df.map Row.name) : ℚ)) * 100 ≤ 100 := by
      have hle : (nunique ((df.filter (fun r => r.price.isSome)).map Row.name) : ℚ) ≤
          (nunique (df.map Row.name) : ℚ) := by exact_mod_cast hsubset
      have hdiv : (nunique ((df.filter (fun r => r.price.isSome)).map Row.name) : ℚ) /
          (nunique (df.map Row.name) : ℚ) ≤ 1 := by
        rw [div_le_one htq]
        exact hle
      linarith
    refine ⟨fun _ => hocc, ?_, ?_, ?_, ?_⟩
    · intro h0
      exact absurd (h0 ▸ ht) (lt_irrefl 0)
    · rw [hocc]
      exact round2_nonneg hratio_nonneg
    · rw [hocc]
      calc round2 _ ≤ round2 100 := round2_mono hratio_le
        _ = 100 := round2_hundred
    · intro hh0
      rw [hocc, hh0]
      norm_num [round2_zero]

/-- Witness for C1 at the spec's own scenario (hotels A and B, both with at
least one non-null price): two distinct hotels, occupancy 100. -/
theorem C1_occupancy_rate_amended_witness :
    occupancy_rate
        [⟨"A", 1, 2, some 100, some 8, none, some 0, "Morning"⟩,
         ⟨"A", 1, 2, none, some 6, none, some 0, "Morning"⟩,
         ⟨"B", 1, 2, some 200, none, none, some 0, "Morning"⟩] = 100 := by
  rw [(C1_occupancy_rate_amended
    [⟨"A", 1, 2, some 100, some 8, none, some 0, "Morning"⟩,
     ⟨"A", 1, 2, none, some 6, none, some 0, "Morning"⟩,
     ⟨"B", 1, 2, some 200, none, none, some 0, "Morning"⟩]).1 (by decide)]
  decide

/-- Claim C2 counterexample: a subset whose single row has the non-null price
0 still yields adr 0, so "equals 0 exactly when every relevant value in the
subset is null" fails. -/
theorem C2_counterexample :
    adr [⟨"A", 1, 2, some 0, none, none, some 0, "Morning"⟩] = 0 ∧
    (([⟨"A", 1, 2, some 0, none, none, some 0, "Morning"⟩] : List Row).map
      Row.price).filterMap id ≠ [] := by
  decide

/-- Claim C2 (amended): avg_review_score and adr equal the mean of the
non-null values rounded to 2 decimals whenever any non-null value exists, and
equal 0 when every relevant value is null; the "exactly when" converse fails
because the rounded mean itself can be 0. -/
theorem C2_safe_means_amended (df : List Row) :
    ((df.map Row.review_score).filterMap id = [] → avg_review_score df = 0) ∧
    ((df.map Row.review_score).filterMap id ≠ [] →
      avg_review_score df = round2 (meanQ ((df.map Row.review_score).filterMap id))) ∧
    ((df.map Row.price).filterMap id = [] → adr df = 0) ∧
    ((df.map Row.price).filterMap id ≠ [] →
      adr df = round2 (meanQ ((df.map Row.price).filterMap id))) :=
  ⟨fun h => safe_mean_eq_zero h, fun h => safe_mean_eq_round2 h,
   fun h => safe_mean_eq_zero h, fun h => safe_mean_eq_round2 h⟩

/-- Witness for C2 at the spec's own scenario: adr is the rounded mean of
the two non-null prices (150) and avg_review_score of the two non-null
review scores (7). -/
theorem C2_safe_means_amended_witness :
    adr [⟨"A", 1, 2, some 100, some 8, none, some 0, "Morning"⟩,
         ⟨"A", 1, 2, none, some 6, none, some 0, "Morning"⟩,
         ⟨"B", 1, 2, some 200, none, none, some 0, "Morning"⟩] = 150 ∧
    avg_review_score [⟨"A", 1, 2, some 100, some 8, none, some 0, "Morning"⟩,
         ⟨"A", 1, 2, none, some 6, none, some 0, "Morning"⟩,
         ⟨"B", 1, 2, some 200, none, none, some 0, "Morning"⟩] = 7 := by
  constructor
  · rw [(C2_safe_means_amended
      [⟨"A", 1, 2, some 100, some 8, none, some 0, "Morning"⟩,
       ⟨"A", 1, 2, none, some 6, none, some 0, "Morning"⟩,
       ⟨"B", 1, 2, some 200, none, none, some 0, "Morning"⟩]).2.2.2 (by decide)]
    decide
  · rw [(C2_safe_means_amended
      [⟨"A", 1, 2, some 100, some 8, none, some 0, "Morning"⟩,
       ⟨"A", 1, 2, none, some 6, none, some 0, "Morning"⟩,
       ⟨"B", 1, 2, some 200, none, none, some 0, "Morning"⟩]).2.1 (by decide)]
    decide

/-- Claim C3 (confirmed): the scalar revpar is round2 of the product of the
already-rounded adr and occupancy_rate divided by 100, and that differs from
recomputing revpar from the unrounded mean and unrounded occupancy (shown on
a concrete table where the two give 333.3 and 333.33). -/
theorem C3_revpar_round_then_multiply :
    (∀ df : List Row, revpar df = round2 (adr df * (occupancy_rate df / 100))) ∧
    (∃ df : List Row, revpar df ≠ revparFromUnrounded df) := by
  refine ⟨fun df => rfl,
    ⟨[⟨"A", 1, 2, some 1000, none, none, some 0, "Morning"⟩,
      ⟨"B", 1, 2, none, none, none, some 0, "Morning"⟩,
      ⟨"C", 1, 2, none, none, none, some 0, "Morning"⟩], by decide⟩⟩

/-- Witness for C3 at a concrete table: the rounded composition evaluates. -/
theorem C3_revpar_round_then_multiply_witness :
    revpar [⟨"A", 1, 2, some 1000, none, none, some 0, "Morning"⟩,
      ⟨"B", 1, 2, none, none, none, some 0, "Morning"⟩,
      ⟨"C", 1, 2, none, none, none, some 0, "Morning"⟩] =
    round2 (adr [⟨"A", 1, 2, some 1000, none, none, some 0, "Morning"⟩,
      ⟨"B", 1, 2, none, none, none, some 0, "Morning"⟩,
      ⟨"C", 1, 2, none, none, none, some 0, "Morning"⟩] *
      (occupancy_rate [⟨"A", 1, 2, some 1000, none, none, some 0, "Morning"⟩,
        ⟨"B", 1, 2, none, none, none, some 0, "Morning"⟩,
        ⟨"C", 1, 2, none, none, none, some 0, "Morning"⟩] / 100)) :=
  C3_revpar_round_then_multiply.1
    [⟨"A", 1, 2, some 1000, none, none, some 0, "Morning"⟩,
     ⟨"B", 1, 2, none, none, none, some 0, "Morning"⟩,
     ⟨"C", 1, 2, none, none, none, some 0, "Morning"⟩]

/-- Claim C4 counterexample: on a concrete three-row partition the emitted
series revpar is 3.333 while the scalar revpar formula (with its final
two-decimal rounding) gives 3.33 on the same partition — the series point
skips the final rounding the claim requires. -/
theorem C4_counterexample :
    revpar_data [⟨"A", 1, 2, some 10, none, none, some 0, "Morning"⟩,
        ⟨"B", 1, 2, none, none, none, some 0, "Morning"⟩,
        ⟨"C", 1, 2, none, none, none, some 0, "Morning"⟩] =
      [⟨some 0, "Morning", 3333/1000⟩] ∧
    revpar (seriesSubset [⟨"A", 1, 2, some 10, none, none, some 0, "Morning"⟩,
        ⟨"B", 1, 2, none, none, none, some 0, "Morning"⟩,
        ⟨"C", 1, 2, none, none, none, some 0, "Morning"⟩] (some 0) "Morning") = 333/100 ∧
    (3333/1000 : ℚ) ≠ 333/100 := by
  decide

/-- Claim C4 (amended): the two series loops partition the subset by the
distinct dates × distinct scrape times present in it and emit exactly the
non-empty partitions; each emitted occupancy value is the scalar
occupancy_rate of the partition, and each emitted revpar value is the
partition's adr × occupancy_rate / 100 — without the final two-decimal
rounding the scalar revpar formula applies. -/
theorem C4_series_partitions_amended (rows : List Row) (p : SeriesPoint) :
    (p ∈ revpar_data rows ↔
      (p.price_date ∈ rows.map Row.price_date ∧
       p.scrape_time ∈ rows.map Row.scrape_time ∧
       seriesSubset rows p.price_date p.scrape_time ≠ [] ∧
       p.value = adr (seriesSubset rows p.price_date p.scrape_time) *
         (occupancy_rate (seriesSubset rows p.price_date p.scrape_time) / 100))) ∧
    (p ∈ occupancy_data rows ↔
      (p.price_date ∈ rows.map Row.price_date ∧
       p.scrape_time ∈ rows.map Row.scrape_time ∧
       seriesSubset rows p.price_date p.scrape_time ≠ [] ∧
       p.value = occupancy_rate (seriesSubset rows p.price_date p.scrape_time))) := by
  constructor
  · exact mem_seriesLoop (f := fun subset =>
      safe_mean (subset.map Row.price) * (calculate_occupancy_rate subset / 100))
  · exact mem_seriesLoop (f := fun subset => calculate_occupancy_rate subset)

/-- Witness for C4: the three-row partition of the counterexample is indeed
emitted by the revpar series loop with the unrounded value 3.333. -/
theorem C4_series_partitions_amended_witness :
    (⟨some 0, "Morning", 3333/1000⟩ : SeriesPoint) ∈
      revpar_data [⟨"A", 1, 2, some 10, none, none, some 0, "Morning"⟩,
        ⟨"B", 1, 2, none, none, none, some 0, "Morning"⟩,
        ⟨"C", 1, 2, none, none, none, some 0, "Morning"⟩] :=
  ((C4_series_partitions_amended
    [⟨"A", 1, 2, some 10, none, none, some 0, "Morning"⟩,
     ⟨"B", 1, 2, none, none, none, some 0, "Morning"⟩,
     ⟨"C", 1, 2, none, none, none, some 0, "Morning"⟩]
    ⟨some 0, "Morning", 3333/1000⟩).1).mpr
    ⟨by decide, by decide, by decide, by decide⟩

/-- Claim C7 counterexample: on a two-row table whose rows differ only in
nights, the filter built from the defaults (empty hotel set, first
nights/persons options, full price and date ranges) keeps only the row
matching the default nights, so it is not the identity. -/
theorem C7_counterexample :
    filtered_data
        [⟨"A", 1, 2, some 100, none, none, some 0, "Morning"⟩,
         ⟨"A", 2, 2, some 100, none, none, some 0, "Morning"⟩]
        (defaultFullSpec
          [⟨"A", 1, 2, some 100, none, none, some 0, "Morning"⟩,
           ⟨"A", 2, 2, some 100, none, none, some 0, "Morning"⟩]) =
      [⟨"A", 1, 2, some 100, none, none, some 0, "Morning"⟩] ∧
    ([⟨"A", 1, 2, some 100, none, none, some 0, "Morning"⟩] : List Row) ≠
      [⟨"A", 1, 2, some 100, none, none, some 0, "Morning"⟩,
       ⟨"A", 2, 2, some 100, none, none, some 0, "Morning"⟩] := by
  decide

/-- Claim C7 (amended): with the default filter specification the pipeline
returns exactly the rows whose nights and persons equal the default (first)
selections and whose price and date are non-null; it is the identity only
when every row already satisfies those predicates. -/
theorem C7_default_filter_amended (data : List Row) :
    filtered_data data (defaultFullSpec data) =
      data.filter (fun r =>
        (r.nights == (listMin (data.map Row.nights)).getD 0) &&
        (r.persons == (listMin (data.map Row.persons)).getD 0) &&
        r.price.isSome && r.price_date.isSome) := by
  rw [filtered_data_eq_filter]
  refine List.filter_congr (fun r hr => ?_)
  have hprice : (qGe r.price ((listMin (nonNullPrices data)).getD 0) &&
      qLe r.price ((listMax (nonNullPrices data)).getD 1000)) = r.price.isSome := by
    cases hp : r.price with
    | none => rfl
    | some p =>
      have hpmem : p ∈ nonNullPrices data := mem_nonNullPrices hr hp
      have hne : nonNullPrices data ≠ [] := List.ne_nil_of_mem hpmem
      obtain ⟨m, hm⟩ := Option.ne_none_iff_exists'.mp (fun h0 => hne (listMin_eq_none.mp h0))
      obtain ⟨M, hM⟩ := Option.ne_none_iff_exists'.mp (fun h0 => hne (listMax_eq_none.mp h0))
      rw [hm, hM]
      simp [qGe, qLe, listMin_le hm hpmem, le_listMax hM hpmem]
  have hdate : (dGe r.price_date ((listMin (nonNullDates data)).getD 0) &&
      dLe r.price_date ((listMax (nonNullDates data)).getD 0)) = r.price_date.isSome := by
    cases hd : r.price_date with
    | none => rfl
    | some d =>
      have hdmem : d ∈ nonNullDates data := mem_nonNullDates hr hd
      have hne : nonNullDates data ≠ [] := List.ne_nil_of_mem hdmem
      obtain ⟨m, hm⟩ := Option.ne_none_iff_exists'.mp (fun h0 => hne (listMin_eq_none.mp h0))
      obtain ⟨M, hM⟩ := Option.ne_none_iff_exists'.mp (fun h0 => hne (listMax_eq_none.mp h0))
      rw [hm, hM]
      simp [dGe, dLe, listMin_le hm hdmem, le_listMax hM hdmem]
  simp only [specFilterPred, defaultFullSpec, List.isEmpty_nil, Bool.true_or, Bool.true_and]
  rw [hprice, hdate]

/-- Witness for C7 at the counterexample table: the default filter equals
the nights/persons/non-null restriction. -/
theorem C7_default_filter_amended_witness :
    filtered_data
        [⟨"A", 1, 2, some 100, none, none, some 0, "Morning"⟩,
         ⟨"A", 2, 2, some 100, none, none, some 0, "Morning"⟩]
        (defaultFullSpec
          [⟨"A", 1, 2, some 100, none, none, some 0, "Morning"⟩,
           ⟨"A", 2, 2, some 100, none, none, some 0, "Morning"⟩]) =
      ([⟨"A", 1, 2, some 100, none, none, some 0, "Morning"⟩,
        ⟨"A", 2, 2, some 100, none, none, some 0, "Morning"⟩] : List Row).filter
        (fun r =>
          (r.nights == (listMin (([⟨"A", 1, 2, some 100, none, none, some 0, "Morning"⟩,
            ⟨"A", 2, 2, some 100, none, none, some 0, "Morning"⟩] : List Row).map
              Row.nights)).getD 0) &&
          (r.persons == (listMin (([⟨"A", 1, 2, some 100, none, none, some 0, "Morning"⟩,
            ⟨"A", 2, 2, some 100, none, none, some 0, "Morning"⟩] : List Row).map
              Row.persons)).getD 0) &&
          r.price.isSome && r.price_date.isSome) :=
  C7_default_filter_amended
    [⟨"A", 1, 2, some 100, none, none, some 0, "Morning"⟩,
     ⟨"A", 2, 2, some 100, none, none, some 0, "Morning"⟩]

/-- Claim C9 (confirmed): the price-range predicate is applied
unconditionally, so every filtered row has a non-null price; consequently on
every non-empty filtered subset the occupancy rate is 100 and adr is the
rounded mean of the actual non-null prices rather than the empty default. -/
theorem C9_price_filter_unconditional (data : List Row) (spec : FilterSpec) :
    (∀ r ∈ filtered_data data spec, r.price.isSome = true) ∧
    (filtered_data data spec ≠ [] →
      occupancy_rate (filtered_data data spec) = 100 ∧
      nonNullPrices (filtered_data data spec) ≠ [] ∧
      adr (filtered_data data spec) =
        round2 (meanQ (nonNullPrices (filtered_data data spec)))) := by
  have hsome : ∀ r ∈ filtered_data data spec, r.price.isSome = true := by
    intro r hrm
    rw [filtered_data] at hrm
    have h2 := mem_of_mem_filterDate hrm
    rw [filterPrice] at h2
    obtain ⟨_, hpred⟩ := List.mem_filter.mp h2
    cases hp : r.price with
    | none =>
      rw [hp] at hpred
      simp [qGe] at hpred
    | some p => rfl
  refine ⟨hsome, fun hne => ?_⟩
  have hmapne : (filtered_data data spec).map Row.name ≠ [] := by simpa using hne
  have ht : 0 < nunique ((filtered_data data spec).map Row.name) := nunique_pos hmapne
  have hfs : (filtered_data data spec).filter (fun r => r.price.isSome) =
      filtered_data data spec :=
    List.filter_eq_self.mpr hsome
  have hisEmpty : (filtered_data data spec).isEmpty = false := by
    simp [List.isEmpty_iff, hne]
  have hocc : occupancy_rate (filtered_data data spec) = 100 := by
    simp only [occupancy_rate, calculate_occupancy_rate, hisEmpty, Bool.false_eq_true,
      if_false, hfs, if_pos ht]
    rw [div_self (Nat.cast_ne_zero.mpr ht.ne'), one_mul, round2_hundred]
  obtain ⟨r0, hr0⟩ := List.exists_mem_of_ne_nil _ hne
  cases hp0 : r0.price with
  | none =>
    exact absurd (hsome r0 hr0) (by rw [hp0]; simp)
  | some p0 =>
    have hpm : p0 ∈ nonNullPrices (filtered_data data spec) := mem_nonNullPrices hr0 hp0
    have hpne : nonNullPrices (filtered_data data spec) ≠ [] := List.ne_nil_of_mem hpm
    refine ⟨hocc, hpne, ?_⟩
    have hsm := safe_mean_eq_round2
      (s := (filtered_data data spec).map Row.price) (by simpa [nonNullPrices] using hpne)
    simpa [adr, nonNullPrices] using hsm

/-- Witness for C9: a one-row table passing all default filters has
occupancy rate 100. -/
theorem C9_price_filter_unconditional_witness :
    occupancy_rate (filtered_data [⟨"A", 1, 2, some 100, none, none, some 0, "Morning"⟩]
      ⟨[], 1, 2, 0, 1000, []⟩) = 100 :=
  ((C9_price_filter_unconditional [⟨"A", 1, 2, some 100, none, none, some 0, "Morning"⟩]
    ⟨[], 1, 2, 0, 1000, []⟩).2 (by decide)).1

end MikeViz
